import Mathlib

/-!
Shallow embedding of the ProWriters order-management backend (server.js)
and proofs about its access-control and order-lifecycle logic.

The embedding models the SQLite-backed store as lists of rows, each HTTP
handler as a pure function from the store (and, where the handler consults
the filesystem, an explicit disk model) to an outcome, following the
control flow of the corresponding route handler in server.js.
-/

namespace ProWriters

/-- A row of the `users` table (server.js CREATE TABLE users). -/
structure User where
  id : Int
  name : String
  email : String
  role : String
  country : String
  approved : Bool
deriving DecidableEq, Repr

/-- A row of the `orders` table (server.js CREATE TABLE orders, corrected
version with payment fields). -/
structure Order where
  id : Int
  title : String
  description : String
  client_id : Option Int
  writer_id : Option Int
  status : String
  submission_file : Option String
  client_guide : Option String
  payment_status : String
  payment_ref : Option String
  amount : Int
deriving DecidableEq, Repr

/-- A row of the `email_verifications` table. `created_at` is modelled as a
numeric timestamp used for the ORDER BY created_at DESC selection. -/
structure VRow where
  id : Int
  user_id : Int
  email : String
  code : String
  expires_at : Nat
  used : Bool
  created_at : Nat
deriving DecidableEq, Repr

/-- The persistent store: the three tables owned by SQLite. -/
structure Store where
  users : List User
  orders : List Order
  verifications : List VRow
deriving DecidableEq, Repr

/-- The server filesystem, as the set of paths that exist (relative to the
server directory, e.g. `uploads/123.docx`, `uploads/previews/7.pdf`). -/
structure Disk where
  files : List String
deriving DecidableEq, Repr

/-- `fs.existsSync` on the modelled disk. -/
def fsExists (d : Disk) (p : String) : Bool :=
  d.files.contains p

/-- ASCII lower-casing of one character (models JS toLowerCase on the
ASCII strings this system stores). -/
def lowerChar (c : Char) : Char :=
  if 65 ≤ c.toNat ∧ c.toNat ≤ 90 then Char.ofNat (c.toNat + 32) else c

/-- `String.prototype.toLowerCase()` on ASCII content. -/
def pwToLower (s : String) : String := String.mk (s.data.map lowerChar)

/-- Characters of the final path component: restart after each slash. -/
def basenameChars : List Char → List Char → List Char
  | cur, [] => cur
  | cur, c :: rest =>
    if c = '/' then basenameChars [] rest else basenameChars (cur ++ [c]) rest

/-- `path.basename`: the final path component. -/
def basename (p : String) : String := String.mk (basenameChars [] p.data)

/-- Whether `s` ends with `suffix` (the SQL pattern `LIKE '%' ++ suffix`). -/
def pwEndsWith (s suffix : String) : Bool := suffix.data.isSuffixOf s.data

/-- `String.prototype.trim()`: strip surrounding whitespace. -/
def pwTrim (s : String) : String :=
  String.mk (((s.data.dropWhile (fun c => c.isWhitespace)).reverse.dropWhile
    (fun c => c.isWhitespace)).reverse)

/-- Path of a file inside the uploads directory. -/
def uploadPath (filename : String) : String :=
  "uploads/" ++ filename

/-- Path of the generated per-order preview artifact
(`path.join(previewDir, orderId + ".pdf")`). -/
def previewPath (orderId : Int) : String :=
  "uploads/previews/" ++ toString orderId ++ ".pdf"

/-- `SELECT * FROM users WHERE id = ?` (id is the primary key). -/
def findUser (s : Store) (uid : Int) : Option User :=
  s.users.find? (fun u => u.id == uid)

/-- `SELECT * FROM orders WHERE id = ?` (id is the primary key). -/
def findOrder (s : Store) (oid : Int) : Option Order :=
  s.orders.find? (fun o => o.id == oid)

/-- `SELECT ... FROM orders WHERE submission_file LIKE ?` with the pattern
`%` ++ filename: the first order whose submission_file ends with the
filename. -/
def findOrderByFile (s : Store) (filename : String) : Option Order :=
  s.orders.find? (fun o =>
    match o.submission_file with
    | some f => pwEndsWith f filename
    | none => false)

/-- Result of an HTTP request that serves bytes (or refuses to). -/
inductive Decision where
  /-- An error response with HTTP status code and message. -/
  | deny : Nat → String → Decision
  /-- `res.sendFile(path)`: the file served in full, no special headers. -/
  | sendFile : String → Decision
  /-- A file streamed with explicit response headers (restricted preview). -/
  | sendInline : String → List (String × String) → Decision
deriving DecidableEq, Repr

/-- Headers set when serving the generated PDF preview artifact. -/
def pdfPreviewHeaders : List (String × String) :=
  [("Content-Type", "application/pdf"),
   ("Content-Disposition", "inline"),
   ("X-Content-Type-Options", "nosniff"),
   ("Cache-Control", "no-store")]

/-- Headers set when streaming the original bytes as an inline preview. -/
def inlineStreamHeaders : List (String × String) :=
  [("Content-Type", "application/octet-stream"),
   ("Content-Disposition", "inline"),
   ("X-Content-Type-Options", "nosniff"),
   ("Cache-Control", "no-store"),
   ("Accept-Ranges", "none")]

/-- The row object the preview handler works on: its query is
`SELECT submission_file, client_id, writer_id, status FROM orders WHERE
id = ?`, so exactly these four columns are present; every other property
of the row object (in particular payment_status) is undefined, modelled
as an `Option String` that this query always leaves at none. -/
structure PreviewRow where
  submission_file : Option String
  client_id : Option Int
  writer_id : Option Int
  status : String
  payment_status : Option String
deriving DecidableEq, Repr

/-- Project an orders row through the preview handler's SELECT list:
payment_status is not in the column list, so it comes out undefined. -/
def selectPreviewRow (o : Order) : PreviewRow :=
  { submission_file := o.submission_file, client_id := o.client_id,
    writer_id := o.writer_id, status := o.status, payment_status := none }

/-- The guard `v && String(v).toLowerCase() === 'paid'` on a possibly
undefined property: undefined and the empty string are falsy. -/
def paidGuard : Option String → Bool
  | none => false
  | some v => if v = "" then false else decide (pwToLower v = "paid")

/-- Core of GET /api/preview/:orderId after the requester has been resolved
to a user row and the order row (with a submission file) has been fetched:
mirrors the branch structure of the handler body. The paid check is kept
exactly where the source has it; on rows produced by this handler's SELECT
its payment_status is undefined, so the branch never fires. -/
def previewCore (user : User) (row : PreviewRow) (oid : Int) (d : Disk) :
    Decision :=
  let filePath := uploadPath (basename (row.submission_file.getD ""))
  if user.role = "admin" ∨ row.writer_id = some user.id then
    .sendFile filePath
  else if row.client_id = some user.id then
    if paidGuard row.payment_status then
      .sendFile filePath
    else if fsExists d (previewPath oid) then
      .sendInline (previewPath oid) pdfPreviewHeaders
    else if fsExists d filePath then
      .sendInline filePath inlineStreamHeaders
    else
      .deny 404 "File not found"
  else
    .deny 403 "Access denied"

/-- GET /api/preview/:orderId: `requester` is the resolved requester id
(None for anonymous requests that carry no usable identity). -/
def previewHandler (s : Store) (d : Disk) (requester : Option Int) (oid : Int) :
    Decision :=
  match requester with
  | none => .deny 403 "Access denied"
  | some uid =>
    match findOrder s oid with
    | none => .deny 404 "Submission not found"
    | some ord =>
      if (selectPreviewRow ord).submission_file.isNone then
        .deny 404 "Submission not found"
      else
        match findUser s uid with
        | none => .deny 403 "Access denied"
        | some user => previewCore user (selectPreviewRow ord) oid d

/-- GET /uploads/:filename (the payment-gated legacy route handler): derives
the owning order from the bare filename and gates on payment_status only;
the requester identity is never consulted. -/
def uploadsRouteHandler (s : Store) (filename : String) : Decision :=
  if filename = "" then .deny 400 "Invalid filename"
  else
    match findOrderByFile s filename with
    | none => .deny 404 "Not found"
    | some ord =>
      if pwToLower ord.payment_status = "paid" then
        .sendFile (uploadPath filename)
      else
        .deny 403 "Direct download blocked. Payment required."

/-- The express.static middleware mounted on /uploads: serves the file when
it exists on disk, otherwise passes the request on (returns none). -/
def staticUploadsMiddleware (d : Disk) (filename : String) : Option Decision :=
  if fsExists d (uploadPath filename) then some (.sendFile (uploadPath filename))
  else none

/-- The request pipeline for GET /uploads/<filename>, in registration order
from server.js: the static middleware (registered first) runs before the
payment-gated route, which only executes when the middleware passes. -/
def uploadsPipeline (s : Store) (d : Disk) (filename : String) : Decision :=
  match staticUploadsMiddleware d filename with
  | some r => r
  | none => uploadsRouteHandler s filename

/-- The three coarse access outcomes of the document server. -/
inductive Outcome where
  | allowFull
  | previewRestricted
  | denied
deriving DecidableEq, Repr

/-- Classify a response as Allow (full file) / Preview / Deny. -/
def classify : Decision → Outcome
  | .deny _ _ => .denied
  | .sendFile _ => .allowFull
  | .sendInline _ _ => .previewRestricted

/-- Result of a state-changing JSON endpoint. -/
inductive OpResult where
  /-- 200 response with a message. -/
  | ok : String → OpResult
  /-- Error response with HTTP status code and message. -/
  | err : Nat → String → OpResult
deriving DecidableEq, Repr

/-- Update every orders row matching the id (UPDATE orders ... WHERE id = ?). -/
def updateOrders (s : Store) (oid : Int) (f : Order → Order) : Store :=
  { s with orders := s.orders.map (fun o => if o.id = oid then f o else o) }

/-- `SELECT id FROM orders WHERE writer_id = ? AND status = 'In Progress'`
returned a row. -/
def hasActive (s : Store) (w : Int) : Prop :=
  ∃ o ∈ s.orders, o.writer_id = some w ∧ o.status = "In Progress"

instance (s : Store) (w : Int) : Decidable (hasActive s w) := by
  unfold hasActive; infer_instance

/-- The row update performed on successful assignment or claim. -/
def assignUpd (wid : Int) (o : Order) : Order :=
  { o with writer_id := some wid, status := "In Progress" }

/-- Core of POST /api/assign (after the admin auth middleware): the
check-then-set sequence of the handler, with its error responses. -/
def assignCore (s : Store) (orderId writerId : Int) : OpResult × Store :=
  if hasActive s writerId then
    (.err 400 "Writer already has an active order", s)
  else
    match findOrder s orderId with
    | none => (.err 404 "Order not found", s)
    | some ord =>
      if ord.writer_id.isSome then (.err 400 "Order already assigned", s)
      else if ord.status ≠ "Pending Assignment" then
        (.err 400 "Order not available for assignment", s)
      else
        (.ok "Order assigned successfully", updateOrders s orderId (assignUpd writerId))

/-- POST /api/claim: writer-only; the writer id is the caller id; otherwise
the same check-then-set sequence as assign with claim-specific messages. -/
def claimCore (s : Store) (caller : User) (orderId : Int) : OpResult × Store :=
  if caller.role ≠ "writer" then (.err 403 "Writer privileges required", s)
  else if hasActive s caller.id then
    (.err 400 "You already have an active order", s)
  else
    match findOrder s orderId with
    | none => (.err 404 "Order not found", s)
    | some ord =>
      if ord.writer_id.isSome then (.err 400 "Order already assigned", s)
      else if ord.status ≠ "Pending Assignment" then
        (.err 400 "Order not available for assignment", s)
      else
        (.ok "Order claimed successfully", updateOrders s orderId (assignUpd caller.id))

/-- POST /api/update-status: after input validation the handler runs
`UPDATE orders SET status = ? WHERE id = ?` with no existence or
transition check and reports success regardless of the number of rows hit. -/
def updateStatusCore (s : Store) (orderId : Int) (status : String) :
    OpResult × Store :=
  if status = "" then (.err 400 "Missing orderId or status", s)
  else
    (.ok "Status updated successfully",
      updateOrders s orderId (fun o => { o with status := status }))

/-- Fresh order id for an INSERT (AUTOINCREMENT primary key). -/
def nextOrderId (s : Store) : Int :=
  (s.orders.map (fun o => o.id)).foldr max 0 + 1

/-- The row inserted for a new order: default status Pending Assignment,
no writer, payment_status unpaid. -/
def newOrder (s : Store) (title description : String) (clientId : Int)
    (guide : Option String) : Order :=
  { id := nextOrderId s, title := title, description := description,
    client_id := some clientId, writer_id := none,
    status := "Pending Assignment", submission_file := none,
    client_guide := guide, payment_status := "unpaid",
    payment_ref := none, amount := 0 }

/-- POST /api/orders: insert a new order in the default state
(status 'Pending Assignment', no writer, payment_status 'unpaid'). -/
def createOrderCore (s : Store) (title description : String) (clientId : Int)
    (guide : Option String) : OpResult × Store :=
  if title = "" ∨ (description = "" ∧ guide.isNone) then
    (.err 400 "Missing required fields: title, client_id and (description or guide file)", s)
  else
    (.ok "Order submitted successfully",
      { s with orders := s.orders ++ [newOrder s title description clientId guide] })

/-- POST /api/submit-work/:orderId: store the file reference and overwrite
status with 'Submitted' (`UPDATE orders SET submission_file = ?,
status = 'Submitted' WHERE id = ?`). -/
def submitWorkCore (s : Store) (orderId : Int) (filePath : String) :
    OpResult × Store :=
  (.ok "Work submitted successfully",
    updateOrders s orderId
      (fun o => { o with submission_file := some filePath, status := "Submitted" }))

/-- POST /api/send-to-client/:orderId (admin): unconditional
`UPDATE orders SET status = 'Delivered to Client' WHERE id = ?`. -/
def deliverCore (s : Store) (orderId : Int) : OpResult × Store :=
  (.ok "Work delivered to client successfully",
    updateOrders s orderId (fun o => { o with status := "Delivered to Client" }))

/-- markOrderPaid helper (used by the payment callback and the simulated
gateway): `UPDATE orders SET payment_status = 'paid', payment_ref = ?,
status = 'Delivered to Client' WHERE id = ?`. -/
def markOrderPaid (s : Store) (orderId : Int) (paymentRef : String) : Store :=
  updateOrders s orderId
    (fun o => { o with payment_status := "paid", payment_ref := some paymentRef,
                       status := "Delivered to Client" })

/-- POST /api/payments/initiate (simulated-gateway branch): after checking
the order exists, unconditionally runs `UPDATE orders SET payment_status =
'pending', payment_ref = ?, amount = ? WHERE id = ?`. -/
def initiatePaymentCore (s : Store) (orderId : Int) (phone : String)
    (amount : Int) (paymentRef : String) : OpResult × Store :=
  if phone = "" then (.err 400 "Missing orderId or phoneNumber", s)
  else
    match findOrder s orderId with
    | none => (.err 404 "Order not found", s)
    | some _ =>
      (.ok "Simulated payment initiated",
        updateOrders s orderId
          (fun o => { o with payment_status := "pending",
                             payment_ref := some paymentRef, amount := amount }))

/-- The editable-field patch accepted by PUT /api/orders/:id (admin). -/
structure OrderPatch where
  title : Option String := none
  description : Option String := none
  client_id : Option (Option Int) := none
  writer_id : Option (Option Int) := none
  status : Option String := none
  amount : Option Int := none
  payment_status : Option String := none
  payment_ref : Option (Option String) := none
deriving Repr

/-- PUT /api/orders/:id (admin): overwrite exactly the supplied fields with
the supplied values, no validation of the values themselves. -/
def adminUpdateOrderCore (s : Store) (orderId : Int) (p : OrderPatch) : Store :=
  updateOrders s orderId (fun o =>
    { o with
      title := p.title.getD o.title
      description := p.description.getD o.description
      client_id := p.client_id.getD o.client_id
      writer_id := p.writer_id.getD o.writer_id
      status := p.status.getD o.status
      amount := p.amount.getD o.amount
      payment_status := p.payment_status.getD o.payment_status
      payment_ref := p.payment_ref.getD o.payment_ref })

/-- The unused verification rows for an email (the WHERE clause of the
verify-email SELECT: `v.email = ? AND v.used = 0`). -/
def unusedRows (s : Store) (email : String) : List VRow :=
  s.verifications.filter (fun v => v.email == email && v.used == false)

/-- The row with the later created_at wins (ties keep the earlier pick). -/
def pickNewer (acc : Option VRow) (v : VRow) : Option VRow :=
  match acc with
  | none => some v
  | some a => if a.created_at < v.created_at then some v else acc

/-- `ORDER BY created_at DESC LIMIT 1`: a row with maximal created_at. -/
def newestRow (l : List VRow) : Option VRow :=
  l.foldl pickNewer none

/-- POST /api/verify-email at time `now` (milliseconds): select the newest
unused row for the normalized email, reject if expired or mismatched,
otherwise mark that row used and approve its user. -/
def verifyEmail (s : Store) (email code : String) (now : Nat) :
    OpResult × Store :=
  if email = "" ∨ code = "" then (.err 400 "Missing email or code", s)
  else
    match newestRow (unusedRows s (pwToLower (pwTrim email))) with
    | none => (.err 400 "No active verification found", s)
    | some row =>
      if row.expires_at < now then (.err 400 "Code expired", s)
      else if row.code ≠ pwTrim code then (.err 400 "Invalid code", s)
      else
        (.ok "Email verified. You may now log in.",
          { s with
            verifications := s.verifications.map (fun v =>
              if v.id = row.id then { v with used := true } else v)
            users := s.users.map (fun u =>
              if u.id = row.user_id then { u with approved := true } else u) })

/-- Whether an order counts toward a writer's active load. -/
def activeFor (w : Int) (o : Order) : Bool :=
  decide (o.writer_id = some w ∧ o.status = "In Progress")

/-- Number of orders with `writer_id = w AND status = 'In Progress'`. -/
def countActive (s : Store) (w : Int) : Nat :=
  s.orders.countP (activeFor w)

/-- Forward progress rank of a payment_status value
(unpaid before pending before paid). -/
def payRank : String → Nat
  | "pending" => 1
  | "paid" => 2
  | _ => 0

/-- Every order of `s` keeps a row with its id whose payment_status rank has
not decreased in `t`. -/
def ordersPreserveRank (s t : Store) : Prop :=
  ∀ o ∈ s.orders, ∃ p ∈ t.orders,
    p.id = o.id ∧ payRank o.payment_status ≤ payRank p.payment_status

/-- The spec decision table for the preview endpoint, written exactly as the
claim states rules 2-6 (rule 1, the missing-submission case, is handled
before the table applies). Rule 5 serves the preview artifact when it
exists and otherwise always streams the original bytes inline. -/
def claimTableC1 (user : User) (ord : Order) (oid : Int) (d : Disk) : Decision :=
  if user.role = "admin" then
    .sendFile (uploadPath (basename (ord.submission_file.getD "")))
  else if ord.writer_id = some user.id then
    .sendFile (uploadPath (basename (ord.submission_file.getD "")))
  else if ord.client_id = some user.id ∧ ord.payment_status = "paid" then
    .sendFile (uploadPath (basename (ord.submission_file.getD "")))
  else if ord.client_id = some user.id then
    if fsExists d (previewPath oid) then
      .sendInline (previewPath oid) pdfPreviewHeaders
    else
      .sendInline (uploadPath (basename (ord.submission_file.getD "")))
        inlineStreamHeaders
  else
    .deny 403 "Access denied"

/-- The decision table amended to what the code does. Rule 4 of the claim
is gone: the handler's SELECT omits payment_status, so its paid check
reads an undefined property and a client is never served the full file.
Rule 5 applies to the client regardless of payment state, and its inline
fallback streams the original bytes only when that file exists on disk;
when neither the preview artifact nor the original file exists, the
request is denied with NotFound. -/
def claimTableC1Amended (user : User) (ord : Order) (oid : Int) (d : Disk) :
    Decision :=
  if user.role = "admin" then
    .sendFile (uploadPath (basename (ord.submission_file.getD "")))
  else if ord.writer_id = some user.id then
    .sendFile (uploadPath (basename (ord.submission_file.getD "")))
  else if ord.client_id = some user.id then
    if fsExists d (previewPath oid) then
      .sendInline (previewPath oid) pdfPreviewHeaders
    else if fsExists d (uploadPath (basename (ord.submission_file.getD ""))) then
      .sendInline (uploadPath (basename (ord.submission_file.getD "")))
        inlineStreamHeaders
    else
      .deny 404 "File not found"
  else
    .deny 403 "Access denied"

/-! ### Concrete fixtures used by counterexamples and witnesses -/

/-- A client user. -/
def clientUser : User :=
  { id := 1, name := "c", email := "c@x.com", role := "client",
    country := "KE", approved := true }

/-- A writer user. -/
def writerUser : User :=
  { id := 2, name := "w", email := "w@x.com", role := "writer",
    country := "KE", approved := true }

/-- An admin user. -/
def adminUser : User :=
  { id := 9, name := "a", email := "a@x.com", role := "admin",
    country := "KE", approved := true }

/-- A submitted, unpaid order owned by client 1 and written by writer 2. -/
def submittedOrder : Order :=
  { id := 1, title := "t", description := "d", client_id := some 1,
    writer_id := some 2, status := "Submitted",
    submission_file := some "/uploads/f.docx", client_guide := none,
    payment_status := "unpaid", payment_ref := none, amount := 0 }

/-- A store holding the three users and the submitted unpaid order. -/
def baseStore : Store :=
  { users := [clientUser, writerUser, adminUser],
    orders := [submittedOrder], verifications := [] }

/-- A disk holding the generated preview artifact and the original file. -/
def diskWithPreview : Disk :=
  { files := ["uploads/previews/1.pdf", "uploads/f.docx"] }

/-- A disk holding neither the preview artifact nor the original file. -/
def diskEmpty : Disk := { files := [] }

/-- Unassigned pending order used to build reachable states. -/
def pendingOrder (oid : Int) : Order :=
  { id := oid, title := "t", description := "d", client_id := some 1,
    writer_id := none, status := "Pending Assignment",
    submission_file := none, client_guide := none,
    payment_status := "unpaid", payment_ref := none, amount := 0 }

/-- Initial store for the single-active-order scenario: two pending orders. -/
def reachStore0 : Store :=
  { users := [clientUser, writerUser],
    orders := [pendingOrder 1, pendingOrder 2], verifications := [] }

/-- Writer 2 claims order 1. -/
def reachStore1 : Store := (claimCore reachStore0 writerUser 1).2

/-- Writer 2 marks order 1 Submitted. -/
def reachStore2 : Store := (updateStatusCore reachStore1 1 "Submitted").2

/-- Writer 2 claims order 2 (allowed: no order of theirs is In Progress). -/
def reachStore3 : Store := (claimCore reachStore2 writerUser 2).2

/-- Update-status moves order 1 back to In Progress. -/
def reachStore4 : Store := (updateStatusCore reachStore3 1 "In Progress").2

/-- An already-paid, delivered variant of the submitted order. -/
def paidOrder : Order :=
  { submittedOrder with
    payment_status := "paid", payment_ref := some "REF0",
    status := "Delivered to Client" }

/-- A store whose single order is already paid. -/
def paidStore : Store :=
  { users := [clientUser], orders := [paidOrder], verifications := [] }

/-- An unverified user together with one live verification code. -/
def verifStore : Store :=
  { users := [{ clientUser with approved := false }], orders := [],
    verifications := [{ id := 1, user_id := 1, email := "c@x.com",
                        code := "123456", expires_at := 1000, used := false,
                        created_at := 10 }] }

/-! ### General lemmas about the store operations -/

theorem updateOrders_mem {s : Store} {oid : Int} {f : Order → Order} {o : Order}
    (ho : o ∈ (updateOrders s oid f).orders) :
    ∃ p ∈ s.orders, o = if p.id = oid then f p else p := by
  simp only [updateOrders, List.mem_map] at ho
  rcases ho with ⟨p, hp, h⟩
  exact ⟨p, hp, h.symm⟩

theorem updateOrders_of_mem {s : Store} {oid : Int} {f : Order → Order}
    {p : Order} (hp : p ∈ s.orders) :
    (if p.id = oid then f p else p) ∈ (updateOrders s oid f).orders := by
  simp only [updateOrders, List.mem_map]
  exact ⟨p, hp, rfl⟩

theorem findOrder_eq_none_iff {s : Store} {oid : Int} :
    findOrder s oid = none ↔ ∀ o ∈ s.orders, o.id ≠ oid := by
  unfold findOrder
  rw [List.find?_eq_none]
  constructor
  · intro h o ho
    have := h o ho
    simpa using this
  · intro h o ho
    simpa using h o ho

theorem updateOrders_no_match {s : Store} {oid : Int} {f : Order → Order}
    (h : ∀ o ∈ s.orders, o.id ≠ oid) : updateOrders s oid f = s := by
  unfold updateOrders
  have : s.orders.map (fun o => if o.id = oid then f o else o) = s.orders := by
    rw [List.map_congr_left (g := fun o => o), List.map_id']
    intro o ho
    simp [h o ho]
  rw [this]

/-! ### Claim C4 -/

/-- Claim C4: the express.static middleware on /uploads is registered before
the payment-gated GET /uploads/:filename route, so for every file present
in the uploads directory the pipeline serves the file bytes directly; the
result does not depend on the store at all (hence not on any order's
payment_status, and the gated handler never executes for such files).
Requester identity appears nowhere in the pipeline, so unauthenticated
requests are served identically. -/
theorem c4_static_serves_before_gate (s t : Store) (d : Disk) (fn : String)
    (h : fsExists d (uploadPath fn) = true) :
    uploadsPipeline s d fn = .sendFile (uploadPath fn) ∧
    uploadsPipeline s d fn = uploadsPipeline t d fn := by
  unfold uploadsPipeline staticUploadsMiddleware
  rw [h]
  exact ⟨rfl, rfl⟩

/-- Witness for C4 at a concrete disk and two concrete stores (one where the
owning order is unpaid). -/
theorem c4_static_serves_before_gate_witness :
    fsExists diskWithPreview (uploadPath "f.docx") = true ∧
    (uploadsPipeline baseStore diskWithPreview "f.docx" =
      .sendFile (uploadPath "f.docx") ∧
    uploadsPipeline baseStore diskWithPreview "f.docx" =
      uploadsPipeline paidStore diskWithPreview "f.docx") :=
  ⟨by decide,
   c4_static_serves_before_gate baseStore paidStore diskWithPreview "f.docx"
     (by decide)⟩

/-! ### Claim C7 -/

/-- Claim C7: markOrderPaid (the payment-confirmation write used by the
gateway callback) sets the matching order's payment_status to paid, stores
the reference in payment_ref, forces status to Delivered to Client, and is
idempotent: a second application with the same reference leaves the store
exactly as after the first. -/
theorem c7_confirm_payment_idempotent (s : Store) (oid : Int) (ref : String) :
    (∀ o ∈ (markOrderPaid s oid ref).orders, o.id = oid →
      o.payment_status = "paid" ∧ o.payment_ref = some ref ∧
      o.status = "Delivered to Client") ∧
    markOrderPaid (markOrderPaid s oid ref) oid ref = markOrderPaid s oid ref := by
  constructor
  · intro o ho hid
    rcases updateOrders_mem ho with ⟨p, _, rfl⟩
    by_cases h : p.id = oid
    · simp [h]
    · simp only [if_neg h] at hid ⊢
      exact absurd hid h
  · simp only [markOrderPaid, updateOrders, List.map_map]
    congr 1
    apply List.map_congr_left
    intro o _
    by_cases h : o.id = oid <;> simp [h, Function.comp]

/-- Witness for C7 at a concrete store and order. -/
theorem c7_confirm_payment_idempotent_witness :
    (∀ o ∈ (markOrderPaid baseStore 1 "REF9").orders, o.id = 1 →
      o.payment_status = "paid" ∧ o.payment_ref = some "REF9" ∧
      o.status = "Delivered to Client") ∧
    markOrderPaid (markOrderPaid baseStore 1 "REF9") 1 "REF9" =
      markOrderPaid baseStore 1 "REF9" :=
  c7_confirm_payment_idempotent baseStore 1 "REF9"

/-! ### Claim C8 -/

/-- Counterexample to claim C8 as stated: update-status on a nonexistent
order id does report success ("Status updated successfully") while leaving
the store unchanged; the handler performs no existence check at all. -/
theorem c8_counterexample :
    findOrder baseStore 5 = none ∧
    updateStatusCore baseStore 5 "Done" =
      (.ok "Status updated successfully", baseStore) := by
  decide

/-- Claim C8 (amended): update-status unconditionally overwrites the status
field with any non-empty status string, applying no transition-legality
check and no existence check: it reports success whether or not the order
exists; for a nonexistent order the store is unchanged, for an existing
order only the status field changes and all other orders are untouched. -/
theorem c8_update_status_overwrite (s : Store) (oid : Int) (st : String)
    (h : st ≠ "") :
    (updateStatusCore s oid st).1 = .ok "Status updated successfully" ∧
    (findOrder s oid = none → (updateStatusCore s oid st).2 = s) ∧
    (∀ o ∈ (updateStatusCore s oid st).2.orders, o.id = oid → o.status = st) ∧
    (∀ o ∈ s.orders, o.id = oid →
      { o with status := st } ∈ (updateStatusCore s oid st).2.orders) ∧
    (∀ o ∈ s.orders, o.id ≠ oid → o ∈ (updateStatusCore s oid st).2.orders) := by
  refine ⟨by simp [updateStatusCore, h], ?_, ?_, ?_, ?_⟩
  · intro hnone
    simp only [updateStatusCore, if_neg h]
    exact updateOrders_no_match (findOrder_eq_none_iff.mp hnone)
  · intro o ho hid
    simp only [updateStatusCore, if_neg h] at ho
    rcases updateOrders_mem ho with ⟨p, _, rfl⟩
    by_cases hp : p.id = oid
    · simp [hp]
    · simp only [if_neg hp] at hid ⊢
      exact absurd hid hp
  · intro o ho hid
    simp only [updateStatusCore, if_neg h]
    have := @updateOrders_of_mem s oid (fun p => { p with status := st }) o ho
    rwa [if_pos hid] at this
  · intro o ho hid
    simp only [updateStatusCore, if_neg h]
    have := @updateOrders_of_mem s oid (fun p => { p with status := st }) o ho
    rwa [if_neg hid] at this

/-- Witness for C8 (amended) at a concrete store, order and status string. -/
theorem c8_update_status_overwrite_witness :
    ("Reopened" : String) ≠ "" ∧
    ((updateStatusCore baseStore 1 "Reopened").1 =
      .ok "Status updated successfully" ∧
    (findOrder baseStore 1 = none → (updateStatusCore baseStore 1 "Reopened").2 = baseStore) ∧
    (∀ o ∈ (updateStatusCore baseStore 1 "Reopened").2.orders, o.id = 1 →
      o.status = "Reopened") ∧
    (∀ o ∈ baseStore.orders, o.id = 1 →
      { o with status := "Reopened" } ∈ (updateStatusCore baseStore 1 "Reopened").2.orders) ∧
    (∀ o ∈ baseStore.orders, o.id ≠ 1 →
      o ∈ (updateStatusCore baseStore 1 "Reopened").2.orders)) :=
  ⟨by decide, c8_update_status_overwrite baseStore 1 "Reopened" (by decide)⟩

/-! ### Counterexamples for C1, C3, C5, C6, C10 -/

/-- Counterexample to claim C1 as stated, at two concrete inputs. First:
rule 4 of the claimed table serves the paid client the full file, but the
handler's SELECT omits payment_status, its paid check reads an undefined
property, and the paid client receives only the restricted inline preview.
Second: for the unpaid client (rule 5) the claimed table always produces a
restricted inline preview, but when neither the generated preview artifact
nor the original file exists on disk the handler denies with NotFound. -/
theorem c1_counterexample :
    (findUser paidStore 1 = some clientUser ∧
      findOrder paidStore 1 = some paidOrder ∧
      paidOrder.payment_status = "paid" ∧
      claimTableC1 clientUser paidOrder 1 diskWithPreview =
        .sendFile (uploadPath "f.docx") ∧
      previewHandler paidStore diskWithPreview (some 1) 1 =
        .sendInline (previewPath 1) pdfPreviewHeaders) ∧
    (findUser baseStore 1 = some clientUser ∧
      findOrder baseStore 1 = some submittedOrder ∧
      claimTableC1 clientUser submittedOrder 1 diskEmpty =
        .sendInline (uploadPath "f.docx") inlineStreamHeaders ∧
      previewHandler baseStore diskEmpty (some 1) 1 =
        .deny 404 "File not found") := by
  decide

/-- Counterexample to claim C3 as stated, at two concrete inputs. First:
for the unpaid submitted order the preview endpoint grants the admin
requester full access while the legacy direct-file route (which never
consults the requester) denies the very same file. Second: for the paid
order the legacy route serves the client the full file while the preview
endpoint — whose SELECT never fetches payment_status — serves only the
restricted preview. The two paths do not reach identical Allow/Deny
outcomes. -/
theorem c3_counterexample :
    (findOrderByFile baseStore "f.docx" = some submittedOrder ∧
      classify (previewHandler baseStore diskWithPreview (some 9) 1) =
        .allowFull ∧
      classify (uploadsRouteHandler baseStore "f.docx") = .denied) ∧
    (findOrderByFile paidStore "f.docx" = some paidOrder ∧
      paidOrder.payment_status = "paid" ∧
      classify (uploadsRouteHandler paidStore "f.docx") = .allowFull ∧
      classify (previewHandler paidStore diskWithPreview (some 1) 1) =
        .previewRestricted) := by
  decide

/-- Counterexample to claim C5 as stated: a state reached through the
modelled operations (two claims interleaved with status updates) in which
update-status hands writer 2 a second In Progress order; the operation
does not preserve the at-most-one-active-order invariant. -/
theorem c5_counterexample :
    (claimCore reachStore0 writerUser 1).1 = .ok "Order claimed successfully" ∧
    (claimCore reachStore2 writerUser 2).1 = .ok "Order claimed successfully" ∧
    countActive reachStore3 2 = 1 ∧
    reachStore4 = (updateStatusCore reachStore3 1 "In Progress").2 ∧
    countActive reachStore4 2 = 2 := by
  decide

/-- Counterexample to claim C6 as stated: initiating a new payment on an
order whose payment_status is already paid succeeds and moves the order
back to pending, a regression the claim rules out. -/
theorem c6_counterexample :
    (findOrder paidStore 1).map (fun o => o.payment_status) = some "paid" ∧
    (initiatePaymentCore paidStore 1 "0712345678" 100 "SIM-1").1 =
      .ok "Simulated payment initiated" ∧
    (findOrder (initiatePaymentCore paidStore 1 "0712345678" 100 "SIM-1").2 1).map
      (fun o => o.payment_status) = some "pending" := by
  decide

/-- Counterexample to claim C10 as stated: two preview requests agreeing on
all six claimed inputs (requester role and id, order client_id, writer_id,
payment_status, submission-file presence) but differing in which files
exist on disk produce different outcomes (Preview versus Deny), so the
decision is not a pure function of those six inputs alone. -/
theorem c10_counterexample :
    classify (previewHandler baseStore diskWithPreview (some 1) 1) =
      .previewRestricted ∧
    classify (previewHandler baseStore diskEmpty (some 1) 1) = .denied := by
  decide

/-! ### Claim C10 (amended part) -/

/-- Claim C10 (amended): the preview access decision is a pure function of
(requester role, requester id, order.client_id, order.writer_id,
submission-file presence) together with two disk facts the counterexample
forces into the signature: whether the order's generated preview artifact
exists and whether the original upload exists. order.payment_status is not
among the determinants at all: the handler's SELECT never fetches it, so
its paid check reads an undefined property and cannot influence the
outcome. Any two resolved requests agreeing on these seven values yield
the same Allow/Preview/Deny outcome. -/
theorem c10_decision_pure_function (s₁ s₂ : Store) (d₁ d₂ : Disk)
    (u₁ u₂ oid₁ oid₂ : Int) (user₁ user₂ : User) (ord₁ ord₂ : Order)
    (hu₁ : findUser s₁ u₁ = some user₁) (hu₂ : findUser s₂ u₂ = some user₂)
    (ho₁ : findOrder s₁ oid₁ = some ord₁) (ho₂ : findOrder s₂ oid₂ = some ord₂)
    (hrole : user₁.role = user₂.role) (hid : user₁.id = user₂.id)
    (hcl : ord₁.client_id = ord₂.client_id)
    (hwr : ord₁.writer_id = ord₂.writer_id)
    (hsub : ord₁.submission_file.isSome = ord₂.submission_file.isSome)
    (hpf : fsExists d₁ (previewPath oid₁) = fsExists d₂ (previewPath oid₂))
    (hof : fsExists d₁ (uploadPath (basename (ord₁.submission_file.getD ""))) =
      fsExists d₂ (uploadPath (basename (ord₂.submission_file.getD "")))) :
    classify (previewHandler s₁ d₁ (some u₁) oid₁) =
      classify (previewHandler s₂ d₂ (some u₂) oid₂) := by
  have hnn : ord₁.submission_file.isNone = ord₂.submission_file.isNone := by
    cases h₁ : ord₁.submission_file <;> cases h₂ : ord₂.submission_file <;>
      simp_all
  simp only [previewHandler, selectPreviewRow, ho₁, ho₂, hu₁, hu₂]
  rw [hnn]
  cases hb : ord₂.submission_file.isNone
  · simp only [Bool.false_eq_true, if_false]
    simp only [previewCore]
    rw [hrole, hwr, hid, hcl, hpf, hof]
    by_cases hA : user₂.role = "admin" ∨ ord₂.writer_id = some user₂.id
    · rw [if_pos hA, if_pos hA]
      rfl
    · rw [if_neg hA, if_neg hA]
      by_cases hC : ord₂.client_id = some user₂.id
      · rw [if_pos hC, if_pos hC]
        simp only [paidGuard, Bool.false_eq_true, if_false]
        cases hE : fsExists d₂ (previewPath oid₂)
        · simp only [Bool.false_eq_true, if_false]
          cases hF : fsExists d₂
              (uploadPath (basename (ord₂.submission_file.getD "")))
          · simp only [Bool.false_eq_true, if_false]
          · simp only [if_true]
            rfl
        · simp only [if_true]
          rfl
      · rw [if_neg hC, if_neg hC]
  · simp only [if_true]

/-- Witness for C10 (amended): two requests with coinciding abstract
inputs but different payment_status values — withheld from the theorem's
hypotheses because the handler never reads it — still classify alike. -/
theorem c10_decision_pure_function_witness :
    (findUser baseStore 1 = some clientUser ∧
      findOrder baseStore 1 = some submittedOrder ∧
      findUser paidStore 1 = some clientUser ∧
      findOrder paidStore 1 = some paidOrder ∧
      submittedOrder.payment_status ≠ paidOrder.payment_status) ∧
    classify (previewHandler baseStore diskWithPreview (some 1) 1) =
      classify (previewHandler paidStore diskWithPreview (some 1) 1) :=
  ⟨⟨by decide, by decide, by decide, by decide, by decide⟩,
   c10_decision_pure_function baseStore paidStore diskWithPreview
     diskWithPreview 1 1 1 1 clientUser clientUser submittedOrder
     paidOrder (by decide) (by decide) (by decide) (by decide) rfl rfl
     rfl rfl rfl rfl rfl⟩

/-! ### Claim C9 -/

theorem newestRow_single (r : VRow) : newestRow [r] = some r := rfl

theorem foldl_pickNewer_mem : ∀ (l : List VRow) (acc : Option VRow) (v : VRow),
    l.foldl pickNewer acc = some v → v ∈ l ∨ acc = some v := by
  intro l
  induction l with
  | nil => exact fun acc v h => Or.inr h
  | cons a t ih =>
    intro acc v h
    rcases ih (pickNewer acc a) v h with hmem | hacc
    · exact Or.inl (List.mem_cons_of_mem a hmem)
    · cases acc with
      | none =>
        left
        have : a = v := Option.some.inj hacc
        rw [← this]
        exact List.mem_cons_self a t
      | some b =>
        simp only [pickNewer] at hacc
        by_cases hlt : b.created_at < a.created_at
        · rw [if_pos hlt] at hacc
          left
          rw [← Option.some.inj hacc]
          exact List.mem_cons_self a t
        · rw [if_neg hlt] at hacc
          exact Or.inr hacc

theorem newestRow_mem {l : List VRow} {v : VRow} (h : newestRow l = some v) :
    v ∈ l := by
  rcases foldl_pickNewer_mem l none v h with hmem | hacc
  · exact hmem
  · cases hacc

/-- Claim C9: a verification code is redeemed at most once. First clause:
whenever verify-email succeeds, the row it consumed was the newest unused
match and was itself unused, unexpired and code-matching — a used or
expired row can never be redeemed. Second clause (round trip): when a
single unused row exists for the email and it is live and matching,
verification succeeds, marks that row used, approves the user, and a
second attempt with the same email and code fails with No active
verification found while leaving the store (hence the approval) unchanged. -/
theorem c9_verification_single_use :
    (∀ s e c n, (verifyEmail s e c n).1 =
        .ok "Email verified. You may now log in." →
      ∃ v, newestRow (unusedRows s (pwToLower (pwTrim e))) = some v ∧
        v.used = false ∧ ¬ v.expires_at < n ∧ v.code = pwTrim c) ∧
    (∀ s e c n m r, ¬ e = "" → ¬ c = "" →
      unusedRows s (pwToLower (pwTrim e)) = [r] →
      ¬ r.expires_at < n → r.code = pwTrim c →
      (verifyEmail s e c n).1 = .ok "Email verified. You may now log in." ∧
      (∀ v ∈ (verifyEmail s e c n).2.verifications, v.id = r.id →
        v.used = true) ∧
      (∀ u ∈ (verifyEmail s e c n).2.users, u.id = r.user_id →
        u.approved = true) ∧
      verifyEmail (verifyEmail s e c n).2 e c m =
        (.err 400 "No active verification found", (verifyEmail s e c n).2)) := by
  constructor
  · intro s e c n h
    unfold verifyEmail at h
    by_cases hin : e = "" ∨ c = ""
    · rw [if_pos hin] at h
      exact absurd h (by simp)
    · rw [if_neg hin] at h
      cases hr : newestRow (unusedRows s (pwToLower (pwTrim e))) with
      | none =>
        rw [hr] at h
        exact absurd h (by simp)
      | some row =>
        rw [hr] at h
        dsimp only at h
        by_cases hexp : row.expires_at < n
        · rw [if_pos hexp] at h
          exact absurd h (by simp)
        · rw [if_neg hexp] at h
          by_cases hcode : row.code ≠ pwTrim c
          · rw [if_pos hcode] at h
            exact absurd h (by simp)
          · have hmem := newestRow_mem hr
            unfold unusedRows at hmem
            have hused := (List.mem_filter.mp hmem).2
            rw [Bool.and_eq_true] at hused
            have : row.used = false := by
              have := hused.2
              simpa using this
            exact ⟨row, rfl, this, hexp, not_not.mp hcode⟩
  · intro s e c n m r he hc hone hexp hcode
    have hin : ¬ (e = "" ∨ c = "") := by simp [he, hc]
    have hres : verifyEmail s e c n =
        (.ok "Email verified. You may now log in.",
          { s with
            verifications := s.verifications.map (fun v =>
              if v.id = r.id then { v with used := true } else v)
            users := s.users.map (fun u =>
              if u.id = r.user_id then { u with approved := true } else u) }) := by
      unfold verifyEmail
      rw [if_neg hin, hone, newestRow_single]
      dsimp only
      rw [if_neg hexp, if_neg (by simp [hcode])]
    rw [hres]
    refine ⟨rfl, ?_, ?_, ?_⟩
    · intro v hv hid
      rcases List.mem_map.mp hv with ⟨w, _, rfl⟩
      by_cases h : w.id = r.id
      · simp [h]
      · exact absurd (by rwa [if_neg h] at hid) h
    · intro u hu hid
      rcases List.mem_map.mp hu with ⟨w, _, rfl⟩
      by_cases h : w.id = r.user_id
      · simp [h]
      · exact absurd (by rwa [if_neg h] at hid) h
    · have hemp : unusedRows
          { s with
            verifications := s.verifications.map (fun v =>
              if v.id = r.id then { v with used := true } else v)
            users := s.users.map (fun u =>
              if u.id = r.user_id then { u with approved := true } else u) }
          (pwToLower (pwTrim e)) = [] := by
        unfold unusedRows
        rw [List.filter_eq_nil_iff]
        intro x hx
        rcases List.mem_map.mp hx with ⟨v, hv, rfl⟩
        by_cases h : v.id = r.id
        · simp [h]
        · rw [if_neg h]
          intro hp
          have hvmem : v ∈ unusedRows s (pwToLower (pwTrim e)) := by
            unfold unusedRows
            exact List.mem_filter.mpr ⟨hv, hp⟩
          rw [hone] at hvmem
          have hvr : v = r := by simpa using hvmem
          exact h (by rw [hvr])
      unfold verifyEmail
      rw [if_neg hin, hemp]
      rfl

/-- Witness for C9: the one-user one-code store, verified at time 500 and
retried at time 600. -/
theorem c9_verification_single_use_witness :
    ((verifyEmail verifStore "c@x.com" "123456" 500).1 =
        .ok "Email verified. You may now log in." →
      ∃ v, newestRow (unusedRows verifStore (pwToLower (pwTrim "c@x.com"))) =
          some v ∧
        v.used = false ∧ ¬ v.expires_at < 500 ∧ v.code = pwTrim "123456") ∧
    ((verifyEmail verifStore "c@x.com" "123456" 500).1 =
      .ok "Email verified. You may now log in." ∧
    (∀ v ∈ (verifyEmail verifStore "c@x.com" "123456" 500).2.verifications,
      v.id = 1 → v.used = true) ∧
    (∀ u ∈ (verifyEmail verifStore "c@x.com" "123456" 500).2.users,
      u.id = 1 → u.approved = true) ∧
    verifyEmail (verifyEmail verifStore "c@x.com" "123456" 500).2
        "c@x.com" "123456" 600 =
      (.err 400 "No active verification found",
        (verifyEmail verifStore "c@x.com" "123456" 500).2)) :=
  ⟨c9_verification_single_use.1 verifStore "c@x.com" "123456" 500,
   c9_verification_single_use.2 verifStore "c@x.com" "123456" 500 600
     { id := 1, user_id := 1, email := "c@x.com", code := "123456",
       expires_at := 1000, used := false, created_at := 10 }
     (by decide) (by decide) (by decide) (by decide) (by decide)⟩

/-! ### Claim C3 (amended part) -/


/-- Claim C3 (amended): the claimed Allow/Deny equivalence fails; what
holds is an exact characterization of each path's full-access rule. The
legacy direct-file route, which never consults the requester, grants the
full file (to anyone) exactly when the owning order's payment_status
lower-cases to paid; the preview endpoint grants full access exactly when
the resolved requester is an admin or the order's writer — never to a
client, paid or not, because its SELECT does not fetch payment_status and
the paid check reads an undefined property. The two paths agree only at
the (requester, order) pairs where these two conditions coincide. -/
theorem c3_full_access_characterization (s : Store) (d : Disk) (uid oid : Int)
    (user : User) (ord : Order) (fn : String)
    (hu : findUser s uid = some user)
    (ho : findOrder s oid = some ord)
    (hfn : ¬ fn = "")
    (hfile : findOrderByFile s fn = some ord)
    (hsub : ord.submission_file.isSome = true) :
    (classify (uploadsRouteHandler s fn) = .allowFull ↔
      pwToLower ord.payment_status = "paid") ∧
    (classify (previewHandler s d (some uid) oid) = .allowFull ↔
      (user.role = "admin" ∨ ord.writer_id = some user.id)) := by
  have hnone : ord.submission_file.isNone = false := by
    cases hsf : ord.submission_file
    · rw [hsf] at hsub
      cases hsub
    · rfl
  constructor
  · unfold uploadsRouteHandler
    rw [if_neg hfn, hfile]
    dsimp only
    by_cases hp : pwToLower ord.payment_status = "paid"
    · rw [if_pos hp]
      simp [classify, hp]
    · rw [if_neg hp]
      simp [classify, hp]
  · simp only [previewHandler, ho, hu, selectPreviewRow, hnone,
      Bool.false_eq_true, if_false]
    unfold previewCore
    dsimp only
    by_cases hA : user.role = "admin" ∨ ord.writer_id = some user.id
    · rw [if_pos hA]
      simp [classify, hA]
    · rw [if_neg hA]
      by_cases hC : ord.client_id = some user.id
      · rw [if_pos hC]
        simp only [paidGuard, Bool.false_eq_true, if_false]
        cases h1 : fsExists d (previewPath oid)
        · cases h2 : fsExists d
              (uploadPath (basename (ord.submission_file.getD "")))
          · simp [classify, hA]
          · simp [classify, hA]
        · simp [classify, hA]
      · rw [if_neg hC]
        simp [classify, hA]

/-- Witness for C3 (amended): the client of the paid order — the legacy
path allows full access, the preview endpoint does not. -/
theorem c3_full_access_characterization_witness :
    (findUser paidStore 1 = some clientUser ∧
      findOrder paidStore 1 = some paidOrder ∧
      findOrderByFile paidStore "f.docx" = some paidOrder) ∧
    ((classify (uploadsRouteHandler paidStore "f.docx") = .allowFull ↔
      pwToLower paidOrder.payment_status = "paid") ∧
    (classify (previewHandler paidStore diskWithPreview (some 1) 1) =
        .allowFull ↔
      (clientUser.role = "admin" ∨ paidOrder.writer_id = some clientUser.id))) :=
  ⟨⟨by decide, by decide, by decide⟩,
   c3_full_access_characterization paidStore diskWithPreview 1 1 clientUser
     paidOrder "f.docx" (by decide) (by decide) (by decide) (by decide)
     (by decide)⟩

/-! ### Claim C2 -/

/-- Claim C2: Assign (admin) and Claim (writer, on their own id) apply one
shared rule, in order: Conflict when the target writer already has an
In Progress order; NotFound when the order does not exist; Conflict when
the order already has a writer or its status differs from Pending
Assignment; on success both set writer_id to the target writer and status
to In Progress (leaving all other orders untouched), and both always
produce the same resulting store. -/
theorem c2_assign_claim_same_rule (s : Store) (oid wid : Int) (caller : User)
    (hrole : caller.role = "writer") (hid : caller.id = wid) :
    ((assignCore s oid wid).2 = (claimCore s caller oid).2) ∧
    (hasActive s wid →
      (assignCore s oid wid).1 = .err 400 "Writer already has an active order" ∧
      (claimCore s caller oid).1 = .err 400 "You already have an active order" ∧
      (assignCore s oid wid).2 = s) ∧
    (¬ hasActive s wid → findOrder s oid = none →
      (assignCore s oid wid).1 = .err 404 "Order not found" ∧
      (claimCore s caller oid).1 = .err 404 "Order not found" ∧
      (assignCore s oid wid).2 = s) ∧
    (∀ ord, ¬ hasActive s wid → findOrder s oid = some ord →
      ord.writer_id ≠ none ∨ ord.status ≠ "Pending Assignment" →
      (∃ m, (assignCore s oid wid).1 = .err 400 m) ∧
      (∃ m, (claimCore s caller oid).1 = .err 400 m) ∧
      (assignCore s oid wid).2 = s) ∧
    (∀ ord, ¬ hasActive s wid → findOrder s oid = some ord →
      ord.writer_id = none → ord.status = "Pending Assignment" →
      (assignCore s oid wid).1 = .ok "Order assigned successfully" ∧
      (claimCore s caller oid).1 = .ok "Order claimed successfully" ∧
      (assignCore s oid wid).2 = updateOrders s oid (assignUpd wid) ∧
      (∀ o ∈ (assignCore s oid wid).2.orders, o.id = oid →
        o.writer_id = some wid ∧ o.status = "In Progress") ∧
      (∀ o ∈ s.orders, o.id ≠ oid → o ∈ (assignCore s oid wid).2.orders)) := by
  subst hid
  have hnrole : ¬ caller.role ≠ "writer" := by simp [hrole]
  refine ⟨?_, ?_, ?_, ?_, ?_⟩
  · unfold assignCore claimCore
    rw [if_neg hnrole]
    by_cases hact : hasActive s caller.id
    · rw [if_pos hact, if_pos hact]
    · rw [if_neg hact, if_neg hact]
      cases hfo : findOrder s oid with
      | none => rfl
      | some ord =>
        dsimp only
        by_cases hws : ord.writer_id.isSome = true
        · rw [if_pos hws, if_pos hws]
        · rw [if_neg hws, if_neg hws]
          by_cases hst : ord.status ≠ "Pending Assignment"
          · rw [if_pos hst, if_pos hst]
          · rw [if_neg hst, if_neg hst]
  · intro hact
    unfold assignCore claimCore
    rw [if_neg hnrole, if_pos hact, if_pos hact]
    exact ⟨rfl, rfl, rfl⟩
  · intro hact hfo
    unfold assignCore claimCore
    rw [if_neg hnrole, if_neg hact, if_neg hact, hfo]
    exact ⟨rfl, rfl, rfl⟩
  · intro ord hact hfo hbad
    unfold assignCore claimCore
    rw [if_neg hnrole, if_neg hact, if_neg hact, hfo]
    dsimp only
    rcases hbad with hws | hst
    · have hws' : ord.writer_id.isSome = true := by
        cases hwid : ord.writer_id
        · exact absurd hwid hws
        · rfl
      rw [if_pos hws', if_pos hws']
      exact ⟨⟨_, rfl⟩, ⟨_, rfl⟩, rfl⟩
    · by_cases hws' : ord.writer_id.isSome = true
      · rw [if_pos hws', if_pos hws']
        exact ⟨⟨_, rfl⟩, ⟨_, rfl⟩, rfl⟩
      · rw [if_neg hws', if_neg hws', if_pos hst, if_pos hst]
        exact ⟨⟨_, rfl⟩, ⟨_, rfl⟩, rfl⟩
  · intro ord hact hfo hwid hst
    have hws' : ¬ ord.writer_id.isSome = true := by rw [hwid]; simp
    have hst' : ¬ ord.status ≠ "Pending Assignment" := by simp [hst]
    unfold assignCore claimCore
    rw [if_neg hnrole, if_neg hact, if_neg hact, hfo]
    dsimp only
    rw [if_neg hws', if_neg hws', if_neg hst', if_neg hst']
    refine ⟨rfl, rfl, rfl, ?_, ?_⟩
    · intro o ho hid2
      rcases updateOrders_mem ho with ⟨p, _, rfl⟩
      by_cases hpm : p.id = oid
      · simp [hpm, assignUpd]
      · exact absurd (by rwa [if_neg hpm] at hid2) hpm
    · intro o ho hne
      have := @updateOrders_of_mem s oid (assignUpd caller.id) o ho
      rwa [if_neg hne] at this

/-- Witness for C2 at the concrete two-pending-order store with writer 2. -/
theorem c2_assign_claim_same_rule_witness :
    (writerUser.role = "writer" ∧ writerUser.id = 2) ∧
    (((assignCore reachStore0 1 2).2 = (claimCore reachStore0 writerUser 1).2) ∧
    (hasActive reachStore0 2 →
      (assignCore reachStore0 1 2).1 = .err 400 "Writer already has an active order" ∧
      (claimCore reachStore0 writerUser 1).1 = .err 400 "You already have an active order" ∧
      (assignCore reachStore0 1 2).2 = reachStore0) ∧
    (¬ hasActive reachStore0 2 → findOrder reachStore0 1 = none →
      (assignCore reachStore0 1 2).1 = .err 404 "Order not found" ∧
      (claimCore reachStore0 writerUser 1).1 = .err 404 "Order not found" ∧
      (assignCore reachStore0 1 2).2 = reachStore0) ∧
    (∀ ord, ¬ hasActive reachStore0 2 → findOrder reachStore0 1 = some ord →
      ord.writer_id ≠ none ∨ ord.status ≠ "Pending Assignment" →
      (∃ m, (assignCore reachStore0 1 2).1 = .err 400 m) ∧
      (∃ m, (claimCore reachStore0 writerUser 1).1 = .err 400 m) ∧
      (assignCore reachStore0 1 2).2 = reachStore0) ∧
    (∀ ord, ¬ hasActive reachStore0 2 → findOrder reachStore0 1 = some ord →
      ord.writer_id = none → ord.status = "Pending Assignment" →
      (assignCore reachStore0 1 2).1 = .ok "Order assigned successfully" ∧
      (claimCore reachStore0 writerUser 1).1 = .ok "Order claimed successfully" ∧
      (assignCore reachStore0 1 2).2 = updateOrders reachStore0 1 (assignUpd 2) ∧
      (∀ o ∈ (assignCore reachStore0 1 2).2.orders, o.id = 1 →
        o.writer_id = some 2 ∧ o.status = "In Progress") ∧
      (∀ o ∈ reachStore0.orders, o.id ≠ 1 →
        o ∈ (assignCore reachStore0 1 2).2.orders))) :=
  ⟨⟨by decide, by decide⟩,
   c2_assign_claim_same_rule reachStore0 1 2 writerUser (by decide) (by decide)⟩

/-! ### Claim C6 (amended part) -/

theorem payRank_le_two (ps : String) : payRank ps ≤ 2 := by
  unfold payRank
  split <;> omega

theorem preserveRank_refl (s : Store) : ordersPreserveRank s s :=
  fun o ho => ⟨o, ho, rfl, le_refl _⟩

theorem preserveRank_updateOrders (s : Store) (oid : Int) (f : Order → Order)
    (hid : ∀ o, (f o).id = o.id)
    (hr : ∀ o, payRank o.payment_status ≤ payRank (f o).payment_status) :
    ordersPreserveRank s (updateOrders s oid f) := by
  intro o ho
  refine ⟨if o.id = oid then f o else o, updateOrders_of_mem ho, ?_, ?_⟩
  · by_cases h : o.id = oid <;> simp [h, hid]
  · by_cases h : o.id = oid <;> simp [h, hr]

/-- Claim C6 (amended): payment_status never regresses under order creation,
assignment, claiming, status updates, work submission, delivery, or
payment confirmation; the two exceptions forced by the counterexample are
initiate-payment (which unconditionally resets the status to pending, even
from paid) and the admin order update (which writes any supplied value). -/
theorem c6_payment_status_no_regress (s : Store) :
    (∀ t de cid g, ordersPreserveRank s (createOrderCore s t de cid g).2) ∧
    (∀ oid wid, ordersPreserveRank s (assignCore s oid wid).2) ∧
    (∀ u oid, ordersPreserveRank s (claimCore s u oid).2) ∧
    (∀ oid st, ordersPreserveRank s (updateStatusCore s oid st).2) ∧
    (∀ oid fp, ordersPreserveRank s (submitWorkCore s oid fp).2) ∧
    (∀ oid, ordersPreserveRank s (deliverCore s oid).2) ∧
    (∀ oid ref, ordersPreserveRank s (markOrderPaid s oid ref)) := by
  refine ⟨?_, ?_, ?_, ?_, ?_, ?_, ?_⟩
  · intro t de cid g
    unfold createOrderCore
    split
    · exact preserveRank_refl s
    · intro o ho
      exact ⟨o, List.mem_append_left _ ho, rfl, le_refl _⟩
  · intro oid wid
    unfold assignCore
    split
    · exact preserveRank_refl s
    · split
      · exact preserveRank_refl s
      · split
        · exact preserveRank_refl s
        · split
          · exact preserveRank_refl s
          · exact preserveRank_updateOrders s oid (assignUpd wid)
              (fun o => rfl) (fun o => le_refl _)
  · intro u oid
    unfold claimCore
    split
    · exact preserveRank_refl s
    · split
      · exact preserveRank_refl s
      · split
        · exact preserveRank_refl s
        · split
          · exact preserveRank_refl s
          · split
            · exact preserveRank_refl s
            · exact preserveRank_updateOrders s oid (assignUpd u.id)
                (fun o => rfl) (fun o => le_refl _)
  · intro oid st
    unfold updateStatusCore
    split
    · exact preserveRank_refl s
    · exact preserveRank_updateOrders s oid _ (fun o => rfl) (fun o => le_refl _)
  · intro oid fp
    unfold submitWorkCore
    exact preserveRank_updateOrders s oid _ (fun o => rfl) (fun o => le_refl _)
  · intro oid
    unfold deliverCore
    exact preserveRank_updateOrders s oid _ (fun o => rfl) (fun o => le_refl _)
  · intro oid ref
    unfold markOrderPaid
    exact preserveRank_updateOrders s oid _ (fun o => rfl)
      (fun o => payRank_le_two o.payment_status)

/-! ### Claim C5 (amended part) -/

theorem countP_map_le {α : Type} (l : List α) (p : α → Bool) (f : α → α)
    (h : ∀ a, p (f a) = true → p a = true) :
    (l.map f).countP p ≤ l.countP p := by
  induction l with
  | nil => simp
  | cons a t ih =>
    simp only [List.map_cons, List.countP_cons]
    have := h a
    cases hfa : p (f a) <;> cases hpa : p a <;> simp_all <;> omega

theorem nodup_ids_countP_le_one (l : List Order) (oid : Int)
    (hn : (l.map (fun o => o.id)).Nodup) :
    l.countP (fun o => decide (o.id = oid)) ≤ 1 := by
  induction l with
  | nil => simp
  | cons a t ih =>
    rw [List.map_cons, List.nodup_cons] at hn
    simp only [List.countP_cons]
    by_cases h : a.id = oid
    · have hz : t.countP (fun o => decide (o.id = oid)) = 0 := by
        rw [List.countP_eq_zero]
        intro o ho
        simp only [decide_eq_true_eq]
        intro he
        have hm : o.id ∈ t.map (fun o => o.id) := List.mem_map_of_mem _ ho
        rw [he, ← h] at hm
        exact hn.1 hm
      simp [h, hz]
    · have := ih hn.2
      simp [h]
      omega

theorem countP_upd_le_match (l : List Order) (oid wid w : Int)
    (hall : ∀ o ∈ l, activeFor w o = false) :
    ((l.map (fun o => if o.id = oid then assignUpd wid o else o)).countP
      (activeFor w)) ≤ l.countP (fun o => decide (o.id = oid)) := by
  induction l with
  | nil => simp
  | cons a t ih =>
    have ha := hall a (List.mem_cons_self a t)
    have iht := ih (fun o ho => hall o (List.mem_cons_of_mem a ho))
    simp only [List.map_cons, List.countP_cons]
    by_cases h : a.id = oid
    · rw [if_pos h]
      have h1 : (if activeFor w (assignUpd wid a) = true then 1 else 0) ≤ 1 := by
        split <;> omega
      have h2 : (if decide (a.id = oid) = true then 1 else 0) = 1 := by simp [h]
      omega
    · rw [if_neg h, ha]
      have h2 : (if decide (a.id = oid) = true then 1 else 0) = 0 := by simp [h]
      simp only [Bool.false_eq_true, if_false]
      omega

theorem not_hasActive_countP {s : Store} {w : Int} (h : ¬ hasActive s w) :
    s.orders.countP (activeFor w) = 0 := by
  rw [List.countP_eq_zero]
  intro o ho
  unfold activeFor
  simp only [decide_eq_true_eq]
  intro hc
  exact h ⟨o, ho, hc⟩

theorem claim_assign_count (l : List Order) (oid wid w : Int)
    (hz : l.countP (activeFor wid) = 0)
    (hn : (l.map (fun o => o.id)).Nodup)
    (hw : l.countP (activeFor w) ≤ 1) :
    ((l.map (fun o => if o.id = oid then assignUpd wid o else o)).countP
      (activeFor w)) ≤ 1 := by
  by_cases hww : w = wid
  · subst hww
    have hall : ∀ o ∈ l, activeFor w o = false := by
      intro o ho
      have := (List.countP_eq_zero.mp hz) o ho
      cases hb : activeFor w o
      · rfl
      · exact absurd hb this
    exact le_trans (countP_upd_le_match l oid w w hall)
      (nodup_ids_countP_le_one l oid hn)
  · refine le_trans (countP_map_le l (activeFor w) _ ?_) hw
    intro a ha
    by_cases h : a.id = oid
    · rw [if_pos h] at ha
      unfold activeFor assignUpd at ha
      simp only [decide_eq_true_eq] at ha
      exact absurd (Option.some.inj ha.1).symm hww
    · rwa [if_neg h] at ha

theorem countActive_updateOrders_le (s : Store) (oid : Int) (f : Order → Order)
    (w : Int) (h : ∀ o, activeFor w (f o) = true → activeFor w o = true) :
    countActive (updateOrders s oid f) w ≤ countActive s w := by
  unfold countActive updateOrders
  apply countP_map_le
  intro a ha
  by_cases hm : a.id = oid
  · rw [if_pos hm] at ha
    exact h a ha
  · rwa [if_neg hm] at ha

/-- Claim C5 (amended): the at-most-one-In-Progress-order-per-writer bound
is preserved by order creation, assignment, claiming, work submission,
delivery, payment initiation and payment confirmation (given the primary
key uniqueness of order ids); the exceptions forced by the counterexample
are update-status and the admin order update, which can overwrite any
order's status with In Progress unconditionally. -/
theorem c5_single_active_order (s : Store) (w : Int)
    (hInv : countActive s w ≤ 1)
    (hn : (s.orders.map (fun o => o.id)).Nodup) :
    (∀ t de cid g, countActive (createOrderCore s t de cid g).2 w ≤ 1) ∧
    (∀ oid wid, countActive (assignCore s oid wid).2 w ≤ 1) ∧
    (∀ u oid, countActive (claimCore s u oid).2 w ≤ 1) ∧
    (∀ oid fp, countActive (submitWorkCore s oid fp).2 w ≤ 1) ∧
    (∀ oid, countActive (deliverCore s oid).2 w ≤ 1) ∧
    (∀ oid ph amt ref, countActive (initiatePaymentCore s oid ph amt ref).2 w ≤ 1) ∧
    (∀ oid ref, countActive (markOrderPaid s oid ref) w ≤ 1) := by
  refine ⟨?_, ?_, ?_, ?_, ?_, ?_, ?_⟩
  · intro t de cid g
    unfold createOrderCore
    split
    · exact hInv
    · unfold countActive at hInv ⊢
      simp only [List.countP_append]
      have hz : List.countP (activeFor w) [newOrder s t de cid g] = 0 := by
        simp [activeFor, newOrder]
      omega
  · intro oid wid
    unfold assignCore
    by_cases hact : hasActive s wid
    · simpa [hact] using hInv
    · rw [if_neg hact]
      cases hfo : findOrder s oid with
      | none => simpa using hInv
      | some ord =>
        cases hws : ord.writer_id.isSome
        · cases hst : decide (ord.status ≠ "Pending Assignment")
          · simp only [hws, Bool.false_eq_true, if_false]
            rw [if_neg (of_decide_eq_false hst)]
            unfold countActive updateOrders
            exact claim_assign_count s.orders oid wid w
              (not_hasActive_countP hact) hn hInv
          · simp only [hws, Bool.false_eq_true, if_false]
            rw [if_pos (of_decide_eq_true hst)]
            exact hInv
        · simpa [hws] using hInv
  · intro u oid
    unfold claimCore
    by_cases hrole : u.role ≠ "writer"
    · simpa [hrole] using hInv
    · rw [if_neg hrole]
      by_cases hact : hasActive s u.id
      · simpa [hact] using hInv
      · rw [if_neg hact]
        cases hfo : findOrder s oid with
        | none => simpa using hInv
        | some ord =>
          cases hws : ord.writer_id.isSome
          · cases hst : decide (ord.status ≠ "Pending Assignment")
            · simp only [hws, Bool.false_eq_true, if_false]
              rw [if_neg (of_decide_eq_false hst)]
              unfold countActive updateOrders
              exact claim_assign_count s.orders oid u.id w
                (not_hasActive_countP hact) hn hInv
            · simp only [hws, Bool.false_eq_true, if_false]
              rw [if_pos (of_decide_eq_true hst)]
              exact hInv
          · simpa [hws] using hInv
  · intro oid fp
    unfold submitWorkCore
    refine le_trans (countActive_updateOrders_le s oid _ w ?_) hInv
    intro o ho
    simp only [activeFor, decide_eq_true_eq] at ho
    have hx : ("Submitted" : String) = "In Progress" := ho.2
    exact absurd hx (by decide)
  · intro oid
    unfold deliverCore
    refine le_trans (countActive_updateOrders_le s oid _ w ?_) hInv
    intro o ho
    simp only [activeFor, decide_eq_true_eq] at ho
    have hx : ("Delivered to Client" : String) = "In Progress" := ho.2
    exact absurd hx (by decide)
  · intro oid ph amt ref
    unfold initiatePaymentCore
    split
    · exact hInv
    · split
      · exact hInv
      · refine le_trans (countActive_updateOrders_le s oid _ w ?_) hInv
        intro o ho
        exact ho
  · intro oid ref
    unfold markOrderPaid
    refine le_trans (countActive_updateOrders_le s oid _ w ?_) hInv
    intro o ho
    simp only [activeFor, decide_eq_true_eq] at ho
    have hx : ("Delivered to Client" : String) = "In Progress" := ho.2
    exact absurd hx (by decide)

/-- Witness for C5 (amended) at the concrete two-order store. -/
theorem c5_single_active_order_witness :
    (countActive reachStore0 2 ≤ 1 ∧
      (reachStore0.orders.map (fun o => o.id)).Nodup) ∧
    ((∀ t de cid g, countActive (createOrderCore reachStore0 t de cid g).2 2 ≤ 1) ∧
    (∀ oid wid, countActive (assignCore reachStore0 oid wid).2 2 ≤ 1) ∧
    (∀ u oid, countActive (claimCore reachStore0 u oid).2 2 ≤ 1) ∧
    (∀ oid fp, countActive (submitWorkCore reachStore0 oid fp).2 2 ≤ 1) ∧
    (∀ oid, countActive (deliverCore reachStore0 oid).2 2 ≤ 1) ∧
    (∀ oid ph amt ref,
      countActive (initiatePaymentCore reachStore0 oid ph amt ref).2 2 ≤ 1) ∧
    (∀ oid ref, countActive (markOrderPaid reachStore0 oid ref) 2 ≤ 1)) :=
  ⟨⟨by decide, by decide⟩,
   c5_single_active_order reachStore0 2 (by decide) (by decide)⟩

/-! ### Claim C1 (amended part) -/

/-- Claim C1 (amended): the preview endpoint follows the ordered decision
table: anonymous requests are denied outright; a missing order or missing
submission_file denies with NotFound; for a resolved requester and an
order with a submission file the outcome equals the claimed table amended
in two places. Rule 4 is dead: the handler's SELECT does not fetch
payment_status, so its paid check reads an undefined property and a client
is never served the full file; rule 5 therefore covers the client
regardless of payment state, and its inline fallback streams the original
bytes only when that file exists on disk, denying with NotFound when
neither the preview artifact nor the original file exists. -/
theorem c1_preview_decision_table (s : Store) (d : Disk) (uid oid : Int)
    (user : User) (ord : Order)
    (hu : findUser s uid = some user)
    (ho : findOrder s oid = some ord) :
    (∀ k, previewHandler s d none k = .deny 403 "Access denied") ∧
    (∀ k, findOrder s k = none →
      previewHandler s d (some uid) k = .deny 404 "Submission not found") ∧
    (ord.submission_file = none →
      previewHandler s d (some uid) oid = .deny 404 "Submission not found") ∧
    (ord.submission_file.isSome = true →
      previewHandler s d (some uid) oid = claimTableC1Amended user ord oid d) := by
  refine ⟨fun k => rfl, ?_, ?_, ?_⟩
  · intro k hk
    simp [previewHandler, hk]
  · intro hn
    simp [previewHandler, ho, selectPreviewRow, hn]
  · intro hsome
    have hnone : ord.submission_file.isNone = false := by
      cases hsf : ord.submission_file
      · rw [hsf] at hsome
        cases hsome
      · rfl
    simp only [previewHandler, ho, hu, selectPreviewRow, hnone,
      Bool.false_eq_true, if_false]
    unfold previewCore claimTableC1Amended
    dsimp only
    by_cases hA : user.role = "admin"
    · simp [hA]
    · by_cases hW : ord.writer_id = some user.id
      · simp [hA, hW]
      · by_cases hC : ord.client_id = some user.id
        · simp [hA, hW, hC, paidGuard]
        · simp [hA, hW, hC]

/-- Witness for C1 (amended) at the concrete paid store with the preview
artifact on disk. -/
theorem c1_preview_decision_table_witness :
    (findUser paidStore 1 = some clientUser ∧
      findOrder paidStore 1 = some paidOrder) ∧
    ((∀ k, previewHandler paidStore diskWithPreview none k =
      .deny 403 "Access denied") ∧
    (∀ k, findOrder paidStore k = none →
      previewHandler paidStore diskWithPreview (some 1) k =
        .deny 404 "Submission not found") ∧
    (paidOrder.submission_file = none →
      previewHandler paidStore diskWithPreview (some 1) 1 =
        .deny 404 "Submission not found") ∧
    (paidOrder.submission_file.isSome = true →
      previewHandler paidStore diskWithPreview (some 1) 1 =
        claimTableC1Amended clientUser paidOrder 1 diskWithPreview)) :=
  ⟨⟨by decide, by decide⟩,
   c1_preview_decision_table paidStore diskWithPreview 1 1 clientUser
     paidOrder (by decide) (by decide)⟩

/-- Witness for C6 (amended) at a concrete store. -/
theorem c6_payment_status_no_regress_witness :
    (∀ t de cid g, ordersPreserveRank baseStore (createOrderCore baseStore t de cid g).2) ∧
    (∀ oid wid, ordersPreserveRank baseStore (assignCore baseStore oid wid).2) ∧
    (∀ u oid, ordersPreserveRank baseStore (claimCore baseStore u oid).2) ∧
    (∀ oid st, ordersPreserveRank baseStore (updateStatusCore baseStore oid st).2) ∧
    (∀ oid fp, ordersPreserveRank baseStore (submitWorkCore baseStore oid fp).2) ∧
    (∀ oid, ordersPreserveRank baseStore (deliverCore baseStore oid).2) ∧
    (∀ oid ref, ordersPreserveRank baseStore (markOrderPaid baseStore oid ref)) :=
  c6_payment_status_no_regress baseStore

end ProWriters
